import Mathlib

/-!
Shallow embedding of the SGP30 driver (`sgp30/sgp30.py`): the CRC-8 checksum
engine, the reply decoders, and the bus/sleep/timestamp behaviour of the
session methods, together with theorems checking the specification's claims.

Wall-clock instants and sleep durations are modelled as rationals.  Bus
traffic and state updates are modelled as explicit event traces; the bytes a
`read` returns are passed in as an argument (the transport is an injected
capability).  Python list indexing `data[i]` raises `IndexError` when out of
range, so decoders return `Option`.
-/

namespace SGP30

/-! ## Constants (from the module header of `sgp30.py`) -/

def I2C_ADDRESS : Nat := 0x58
def REG_BASE : Nat := 0x00
def CMD_HEAD : Nat := 0x20
def CMD_IAQ_INIT : Nat := 0x03
def CMD_MEASURE_IAQ : Nat := 0x08
def CMD_SET_ABS_HUMI : Nat := 0x61
def CMD_GET_FEATURE_SET : Nat := 0x2F
def CMD_SOFT_RESET : Nat := 0x06
def CMD_GET_SERIAL_ID : List Nat := [0x36, 0x82]
def T_IDLE : ℚ := 1/1000
def SENSOR_MAKER : String := "Sensirion"

/-- The I2C general-call address (the bus broadcast address, a fixed bus-level
constant; the spec's soft-reset row addresses the reset opcode to it). -/
def GENERAL_CALL_ADDRESS : Nat := 0x00

/-! ## Checksum engine (`SGP30.crc_calc`, `SGP30.crc_check`)

The source keeps the running value as an unbounded Python int and masks with
`0xFF` only at the very end; the embedding reproduces that exactly. -/

/-- One inner-loop iteration of `crc_calc`: `crc = (crc << 1) ^ 0x31` when
bit 7 is set, else `crc = crc << 1` (no masking inside the loop). -/
def crcRound (c : Nat) : Nat :=
  if c &&& 0x80 ≠ 0 then (c <<< 1) ^^^ 0x31 else c <<< 1

/-- Runs `n` iterations of the inner loop. -/
def crcRounds : Nat → Nat → Nat
  | 0, c => c
  | n + 1, c => crcRounds n (crcRound c)

/-- Source `SGP30.crc_calc`: start from `0xFF`; for `i in range(2)` XOR `data[i]`
into the running value and run the inner loop 8 times; mask the result with
`0xFF`.  `data[i]` out of range raises, hence `Option`. -/
def crc_calc (data : List Nat) : Option Nat := do
  let b0 ← data[0]?
  let b1 ← data[1]?
  return crcRounds 8 (crcRounds 8 (0xFF ^^^ b0) ^^^ b1) &&& 0xFF

/-- Source `SGP30.crc_check`: `crc_calc(data) == checksum` (propagating a failed
index access). -/
def crc_check (data : List Nat) (checksum : Nat) : Option Bool :=
  (crc_calc data).map (fun c => c == checksum)

/-! ## The spec's description of the checksum: a CRC-8 with an 8-bit running
register (initial value `0xFF`, polynomial `0x31`, MSB first, no final XOR). -/

/-- One round of the textbook CRC-8: the register is kept to 8 bits. -/
def crc8SpecRound (c : Nat) : Nat :=
  if c &&& 0x80 ≠ 0 then ((c <<< 1) &&& 0xFF) ^^^ 0x31 else (c <<< 1) &&& 0xFF

/-- Runs `n` textbook rounds. -/
def crc8SpecRounds : Nat → Nat → Nat
  | 0, c => c
  | n + 1, c => crc8SpecRounds n (crc8SpecRound c)

/-- The spec's CRC-8 over a two-byte word: initial value `0xFF`, XOR each
byte in, 8 shift/XOR rounds per byte with polynomial `0x31`. -/
def crc8_spec (a b : Nat) : Nat :=
  crc8SpecRounds 8 (crc8SpecRounds 8 (0xFF ^^^ a) ^^^ b)

/-! ## Uppercase hex rendering (Python's `"{:06X}".format`) -/

/-- Uppercase hexadecimal digit character. -/
def hexDigitUpper (n : Nat) : Char :=
  if n < 10 then Char.ofNat (48 + n) else Char.ofNat (55 + n)

/-- Hex digits of `n`, most significant first (fuel-driven; `n + 1` units of
fuel always suffice since the value shrinks by a factor 16 each step). -/
def hexDigitsAux : Nat → Nat → List Char
  | 0, _ => []
  | fuel + 1, n =>
    if n = 0 then [] else hexDigitsAux fuel (n / 16) ++ [hexDigitUpper (n % 16)]

/-- Python `"{:X}".format n`: uppercase hex, no padding, `"0"` for zero. -/
def hexUpper (n : Nat) : List Char :=
  if n = 0 then ['0'] else hexDigitsAux (n + 1) n

/-- Python `"{:06X}".format n`: uppercase hex, zero-padded to width 6 (wider
values are printed in full, never truncated). -/
def format06X (n : Nat) : String :=
  let s := hexUpper n
  ⟨List.replicate (6 - s.length) '0' ++ s⟩

/-! ## Event traces -/

/-- One observable step of a session method, in program order: a blocking
sleep, an `smbus2` block write (`write_i2c_block_data(addr, head, payload)`),
a single-byte write (`write_byte(addr, value)`), a block read
(`read_i2c_block_data(addr, reg, length)`), the assignment
`self.__tracker = time()`, or `bus.close()`. -/
inductive Ev
  | sleep (d : ℚ)
  | write (addr head : Nat) (payload : List Nat)
  | writeByte (addr value : Nat)
  | read (addr reg length : Nat)
  | setTracker (t : ℚ)
  | closeBus
  deriving DecidableEq, Repr

/-- Does an event issue the "set absolute humidity" command (a block write
whose first payload byte is opcode `0x61`)? -/
def isHumidityCmd : Ev → Bool
  | .write _ head (op :: _) => head == CMD_HEAD && op == CMD_SET_ABS_HUMI
  | _ => false

/-! ## Value objects (`sgp30/models.py`) -/

structure Measurement where
  name : String
  unit : String
  value : Nat
  deriving DecidableEq, Repr

structure SensorData where
  measurements : List Measurement
  deriving DecidableEq, Repr

structure SensorInfo where
  maker : String
  model : Option String
  serial : Option String
  version : Option String
  deriving DecidableEq, Repr

/-! ## Session state -/

/-- Construction: `SGP30.__init__` sets `self.__tracker = 0`: the "never issued" initial
value of the last-measurement-issuance timestamp. -/
def init_tracker : ℚ := 0

/-! ## `SGP30.get_measurement`

The method reads the clock twice (`time()` in the spacing test and `time()`
in the tracker assignment); both instants are inputs, as is the 6-byte reply
the transport returns.  `temp` and `humi` are the method's keyword arguments
(the humidity-compensation call in the body is commented out). -/

structure MeasureResult where
  events : List Ev
  result : Option SensorData
  tracker : ℚ
  deriving DecidableEq, Repr

def get_measurement (tracker now now2 : ℚ) (reply : List Nat)
    (temp humi : ℚ) : MeasureResult :=
  let pre : List Ev := if now - tracker < 1 then [.sleep 1] else []
  let events := pre ++
    [.write I2C_ADDRESS CMD_HEAD [CMD_MEASURE_IAQ],
     .sleep 1,
     .read I2C_ADDRESS REG_BASE 6,
     .setTracker now2]
  match reply[0]?, reply[1]?, reply[3]?, reply[4]? with
  | some b0, some b1, some b3, some b4 =>
    { events := events
      result := some ⟨[⟨"co2", "ppm", b0 <<< 8 ||| b1⟩,
                       ⟨"tvoc", "ppb", b3 <<< 8 ||| b4⟩]⟩
      tracker := now2 }
  | _, _, _, _ =>
    { events := events, result := none, tracker := now2 }

/-! ## `SGP30.get_serial_id` -/

def get_serial_id_events : List Ev :=
  [.write I2C_ADDRESS 0x36 [0x82], .sleep T_IDLE, .read I2C_ADDRESS REG_BASE 9]

/-- Decode of the 9-byte serial reply:
`"{:06X}".format(d0<<40 | d1<<32 | d3<<24 | d4<<16 | d6<<8 | d7)`. -/
def serial_id_decode (data : List Nat) : Option String := do
  let d0 ← data[0]?
  let d1 ← data[1]?
  let d3 ← data[3]?
  let d4 ← data[4]?
  let d6 ← data[6]?
  let d7 ← data[7]?
  return format06X (d0 <<< 40 ||| d1 <<< 32 ||| d3 <<< 24 ||| d4 <<< 16 |||
    d6 <<< 8 ||| d7)

/-! ## Feature-set queries -/

def feature_set_events : List Ev :=
  [.write I2C_ADDRESS CMD_HEAD [CMD_GET_FEATURE_SET], .sleep (5/100),
   .read I2C_ADDRESS REG_BASE 3]

/-- Source `SGP30.get_product_version`: byte 1's top 3 bits are the major, low 5
bits the minor, rendered `f"{major}.{minor}"`. -/
def product_version_decode (byte_data : List Nat) : Option String := do
  let d ← byte_data[1]?
  return toString ((d &&& 0b11100000) >>> 5) ++ "." ++ toString (d &&& 0b00011111)

/-- Source `SGP30.get_product_type`: byte 0's high nibble; `0` means `"SGP30"`,
anything else `None`. -/
def product_type_decode (byte_data : List Nat) : Option (Option String) := do
  let d ← byte_data[0]?
  let product_type := (d &&& 0b11110000) >>> 4
  return if product_type = 0 then some "SGP30" else none

/-! ## `SGP30.get_sensor_info` -/

structure InfoResult where
  events : List Ev
  result : Option SensorInfo
  tracker : ℚ
  deriving DecidableEq, Repr

/-- Source `get_sensor_info` calls `get_serial_id`, then `get_product_type`, then
`get_product_version`, and assembles the record; `self.__tracker` is never
touched, so the state component passes through. -/
def get_sensor_info (tracker : ℚ)
    (serial_reply type_reply version_reply : List Nat) : InfoResult :=
  { events := get_serial_id_events ++ feature_set_events ++ feature_set_events
    result := do
      let serial ← serial_id_decode serial_reply
      let product_type ← product_type_decode type_reply
      let product_version ← product_version_decode version_reply
      return ⟨SENSOR_MAKER, product_type, some serial, some product_version⟩
    tracker := tracker }

/-! ## `SGP30.soft_reset` and `SGP30.close` -/

/-- Source `soft_reset` executes `self.__bus.write_byte(CMD_HEAD, CMD_SOFT_RESET)`:
`write_byte`'s first argument is the I2C address, so the byte `0x06` is
written to address `0x20`. -/
def soft_reset_events : List Ev := [.writeByte CMD_HEAD CMD_SOFT_RESET]

/-- Source `close` performs `soft_reset` then `self.__bus.close()`. -/
def close_events : List Ev := soft_reset_events ++ [.closeBus]

/-! ## Helper lemmas: the unmasked running value of `crc_calc` agrees, modulo
256, with the 8-bit register of the textbook CRC-8. -/

lemma and_255_eq_mod (n : Nat) : n &&& 255 = n % 256 := by
  have h : n &&& 255 = n &&& (2 ^ 8 - 1) := by norm_num
  rw [h, Nat.and_pow_two_sub_one_eq_mod]

lemma shiftLeft_one_and_255 (c : Nat) :
    (c <<< 1) &&& 255 = ((c &&& 255) <<< 1) &&& 255 := by
  simp only [Nat.shiftLeft_eq, and_255_eq_mod, pow_one]
  omega

lemma xor_and_255 (c b : Nat) (hb : b < 256) :
    (c ^^^ b) &&& 255 = (c &&& 255) ^^^ b := by
  rw [Nat.and_xor_distrib_right, and_255_eq_mod b, Nat.mod_eq_of_lt hb]

lemma crcRound_comm (c : Nat) :
    crcRound c &&& 255 = crc8SpecRound (c &&& 255) := by
  unfold crcRound crc8SpecRound
  have hcond : (c &&& 255) &&& 0x80 = c &&& 0x80 := by
    rw [Nat.and_assoc, show ((255 : Nat) &&& 0x80) = 0x80 from by decide]
  rw [hcond]
  by_cases h : c &&& 0x80 ≠ 0
  · rw [if_pos h, if_pos h, Nat.and_xor_distrib_right,
      show ((0x31 : Nat) &&& 255) = 0x31 from by decide, shiftLeft_one_and_255]
  · rw [if_neg h, if_neg h, shiftLeft_one_and_255]

lemma crcRounds_comm (n c : Nat) :
    crcRounds n c &&& 255 = crc8SpecRounds n (c &&& 255) := by
  induction n generalizing c with
  | zero => rfl
  | succ n ih =>
    show crcRounds n (crcRound c) &&& 255 = crc8SpecRounds n (crc8SpecRound (c &&& 255))
    rw [ih, crcRound_comm]

lemma crc_calc_pair (a b : Nat) :
    crc_calc [a, b] = some (crcRounds 8 (crcRounds 8 (0xFF ^^^ a) ^^^ b) &&& 0xFF) := rfl

/-! ## Claim theorems -/

/-- C1: on every pair of bytes, `crc_calc` computes exactly the CRC-8 with
initial value `0xFF` and polynomial `0x31`, MSB first, no final XOR (the
8-bit-register formulation `crc8_spec`), and `crc_check data (crc_calc data)`
holds. -/
theorem crc_calc_matches_crc8_spec :
    ∀ a < 256, ∀ b < 256,
      crc_calc [a, b] = some (crc8_spec a b) ∧
      crc_check [a, b] (crc8_spec a b) = some true := by
  intro a ha b hb
  have key : crc_calc [a, b] = some (crc8_spec a b) := by
    rw [crc_calc_pair, crc8_spec]
    have h8 : (256 : Nat) = 2 ^ 8 := by norm_num
    have hxa : (0xFF : Nat) ^^^ a < 256 := by
      rw [h8]
      exact Nat.xor_lt_two_pow (by norm_num) (h8 ▸ ha)
    rw [show (0xFF : Nat) = 255 from rfl, crcRounds_comm, xor_and_255 _ b hb,
      crcRounds_comm, and_255_eq_mod, Nat.mod_eq_of_lt hxa]
  refine ⟨key, ?_⟩
  simp [crc_check, key]

/-- Witness for C1 at the Sensirion datasheet vector `0xBEEF` (checksum
`0x92`). -/
theorem crc_calc_matches_crc8_spec_witness :
    crc_calc [0xBE, 0xEF] = some (crc8_spec 0xBE 0xEF) ∧ crc8_spec 0xBE 0xEF = 0x92 :=
  ⟨(crc_calc_matches_crc8_spec 0xBE (by norm_num) 0xEF (by norm_num)).1, by decide⟩

/-- C10: on any list of length ≥ 2, `crc_calc` succeeds with a value in
`0..255` that depends only on the first two elements; on a shorter list the
out-of-range index access makes it fail. -/
theorem crc_calc_safety (l : List Nat) (a b : Nat) (rest : List Nat) :
    (2 ≤ l.length → ∃ c, crc_calc l = some c ∧ c ≤ 255) ∧
    crc_calc (a :: b :: rest) = crc_calc [a, b] ∧
    (l.length < 2 → crc_calc l = none) := by
  refine ⟨?_, by simp [crc_calc], ?_⟩
  · intro h
    obtain _ | ⟨x, _ | ⟨y, r⟩⟩ := l
    · simp at h
    · simp at h
    · exact ⟨crcRounds 8 (crcRounds 8 (0xFF ^^^ x) ^^^ y) &&& 0xFF,
        by simp [crc_calc], Nat.and_le_right⟩
  · intro h
    obtain _ | ⟨x, _ | ⟨y, r⟩⟩ := l
    · rfl
    · rfl
    · simp at h; omega

/-- Witness for C10: a 4-element list succeeds with a byte-sized result equal
to that of its 2-element prefix, and a 1-element list fails. -/
theorem crc_calc_safety_witness :
    (∃ c, crc_calc [0xBE, 0xEF, 1, 2] = some c ∧ c ≤ 255) ∧
    crc_calc (0xBE :: 0xEF :: [1, 2]) = crc_calc [0xBE, 0xEF] ∧
    crc_calc [5] = none :=
  ⟨(crc_calc_safety [0xBE, 0xEF, 1, 2] 0 0 []).1 (by decide),
   (crc_calc_safety [5] 0xBE 0xEF [1, 2]).2.1,
   (crc_calc_safety [5] 0 0 []).2.2 (by decide)⟩

/-! ## Helper lemmas about `get_measurement`'s trace and state -/

lemma get_measurement_events (tracker now now2 : ℚ) (reply : List Nat)
    (temp humi : ℚ) :
    (get_measurement tracker now now2 reply temp humi).events =
      (if now - tracker < 1 then [Ev.sleep 1] else []) ++
      [Ev.write I2C_ADDRESS CMD_HEAD [CMD_MEASURE_IAQ], Ev.sleep 1,
       Ev.read I2C_ADDRESS REG_BASE 6, Ev.setTracker now2] := by
  unfold get_measurement
  cases h0 : reply[0]? <;> cases h1 : reply[1]? <;> cases h3 : reply[3]? <;>
    cases h4 : reply[4]? <;> rfl

lemma get_measurement_tracker (tracker now now2 : ℚ) (reply : List Nat)
    (temp humi : ℚ) :
    (get_measurement tracker now now2 reply temp humi).tracker = now2 := by
  unfold get_measurement
  cases h0 : reply[0]? <;> cases h1 : reply[1]? <;> cases h3 : reply[3]? <;>
    cases h4 : reply[4]? <;> rfl

/-- C5: a 6-byte reply `[b0,b1,b2,b3,b4,b5]` decodes to CO2 word
`b0<<8 | b1` with unit `"ppm"` and TVOC word `b3<<8 | b4` with unit `"ppb"`;
in particular `[0x01,0xF4,crc,0x00,0x64,crc]` with the correct checksums
(`0x33` and `0xFE`) decodes to 500 ppm and 100 ppb. -/
theorem measurement_decode (tracker now now2 temp humi : ℚ)
    (b0 b1 b2 b3 b4 b5 : Nat) :
    (get_measurement tracker now now2 [b0, b1, b2, b3, b4, b5] temp humi).result =
      some ⟨[⟨"co2", "ppm", b0 <<< 8 ||| b1⟩, ⟨"tvoc", "ppb", b3 <<< 8 ||| b4⟩]⟩ ∧
    (get_measurement tracker now now2 [0x01, 0xF4, 0x33, 0x00, 0x64, 0xFE]
        temp humi).result =
      some ⟨[⟨"co2", "ppm", 500⟩, ⟨"tvoc", "ppb", 100⟩]⟩ ∧
    crc_calc [0x01, 0xF4] = some 0x33 ∧ crc_calc [0x00, 0x64] = some 0xFE := by
  refine ⟨rfl, rfl, by decide, by decide⟩

/-- C2: the code never verifies the checksum bytes of a measurement reply:
on a reply whose two checksum bytes are both wrong (`crc_check` refutes
them), `get_measurement` still returns the decoded measurement instead of
surfacing a checksum-mismatch error. -/
theorem measurement_accepts_bad_checksums :
    crc_check [0x01, 0xF4] 0x00 = some false ∧
    crc_check [0x00, 0x64] 0x00 = some false ∧
    (get_measurement 0 2 3 [0x01, 0xF4, 0x00, 0x00, 0x64, 0x00] 0 0).result =
      some ⟨[⟨"co2", "ppm", 500⟩, ⟨"tvoc", "ppb", 100⟩]⟩ := by
  refine ⟨by decide, by decide, rfl⟩

/-- C3, counterexample: with 1/2 s elapsed since the last issuance the call
sleeps a full 1 s, not the remaining time 1 − 1/2. -/
theorem sleep_not_remaining_time :
    (get_measurement 0 (1/2) 2 [0, 0, 0, 0, 0, 0] 0 0).events.head? =
      some (Ev.sleep 1) ∧
    (1 : ℚ) ≠ 1 - ((1/2 : ℚ) - 0) := by
  have hc : ((1 : ℚ)/2 - 0 < 1) := by norm_num
  constructor
  · rw [get_measurement_events, if_pos hc]
    rfl
  · norm_num

/-- C3, amended: when under 1 s has elapsed the call delays its command
write by sleeping a fixed 1 s (which is at least the remaining
`1 − elapsed`); when at least 1 s has elapsed the first bus action is the
command write, with no delay. -/
theorem sleep_spacing (tracker now now2 : ℚ) (reply : List Nat)
    (temp humi : ℚ) :
    (0 ≤ now - tracker → now - tracker < 1 →
      (get_measurement tracker now now2 reply temp humi).events.head? =
        some (Ev.sleep 1) ∧
      (1 : ℚ) ≥ 1 - (now - tracker)) ∧
    (1 ≤ now - tracker →
      (get_measurement tracker now now2 reply temp humi).events.head? =
        some (Ev.write I2C_ADDRESS CMD_HEAD [CMD_MEASURE_IAQ])) := by
  constructor
  · intro h0 h
    refine ⟨?_, by linarith⟩
    rw [get_measurement_events, if_pos h]
    rfl
  · intro h
    rw [get_measurement_events, if_neg (by linarith)]
    rfl

/-- Witness for C3 (amended): a call at elapsed 1/2 s sleeps 1 s first; a
call at elapsed 5 s starts with the command write. -/
theorem sleep_spacing_witness :
    ((get_measurement 0 (1/2) 2 [0, 0, 0, 0, 0, 0] 0 0).events.head? =
        some (Ev.sleep 1) ∧
      (1 : ℚ) ≥ 1 - ((1/2 : ℚ) - 0)) ∧
    (get_measurement 0 5 6 [0, 0, 0, 0, 0, 0] 0 0).events.head? =
      some (Ev.write I2C_ADDRESS CMD_HEAD [CMD_MEASURE_IAQ]) :=
  ⟨(sleep_spacing 0 (1/2) 2 [0, 0, 0, 0, 0, 0] 0 0).1 (by norm_num) (by norm_num),
   (sleep_spacing 0 5 6 [0, 0, 0, 0, 0, 0] 0 0).2 (by norm_num)⟩

/-- C6, counterexample: the event immediately after the command write
(trace index 1) is the settle sleep, and the tracker update sits at index 3,
after the read at index 2 — not immediately after the write. -/
theorem tracker_update_after_read :
    (get_measurement 0 2 3 [0, 0, 0, 0, 0, 0] 0 0).events =
      [Ev.write I2C_ADDRESS CMD_HEAD [CMD_MEASURE_IAQ], Ev.sleep 1,
       Ev.read I2C_ADDRESS REG_BASE 6, Ev.setTracker 3] ∧
    (get_measurement 0 2 3 [0, 0, 0, 0, 0, 0] 0 0).events[1]? ≠
      some (Ev.setTracker 3) := by
  have h : (get_measurement 0 2 3 [0, 0, 0, 0, 0, 0] 0 0).events =
      [Ev.write I2C_ADDRESS CMD_HEAD [CMD_MEASURE_IAQ], Ev.sleep 1,
       Ev.read I2C_ADDRESS REG_BASE 6, Ev.setTracker 3] := by
    rw [get_measurement_events, if_neg (by norm_num)]
    rfl
  refine ⟨h, ?_⟩
  rw [h]
  simp

/-- C6, amended: the timestamp is initialized to 0 ("never issued") at
construction, and `get_measurement` sets it to the clock reading taken after
the settle sleep and the reply read (the trace ends
`write, sleep, read, setTracker`), not immediately after the write. -/
theorem tracker_update (tracker now now2 : ℚ) (reply : List Nat)
    (temp humi : ℚ) :
    init_tracker = 0 ∧
    (get_measurement tracker now now2 reply temp humi).tracker = now2 ∧
    ∃ pre, (get_measurement tracker now now2 reply temp humi).events =
      pre ++ [Ev.write I2C_ADDRESS CMD_HEAD [CMD_MEASURE_IAQ], Ev.sleep 1,
              Ev.read I2C_ADDRESS REG_BASE 6, Ev.setTracker now2] :=
  ⟨rfl, get_measurement_tracker tracker now now2 reply temp humi,
   ⟨_, get_measurement_events tracker now now2 reply temp humi⟩⟩

/-- C9: the decoded values and the whole observable behaviour of
`get_measurement` are independent of the `temp` and `humi` arguments, and no
humidity-compensation command (opcode `0x61`) is ever issued by it. -/
theorem measurement_independent_of_humidity_args (tracker now now2 : ℚ)
    (reply : List Nat) (temp humi temp2 humi2 : ℚ) :
    get_measurement tracker now now2 reply temp humi =
      get_measurement tracker now now2 reply temp2 humi2 ∧
    ((get_measurement tracker now now2 reply temp humi).events.all
      fun e => !isHumidityCmd e) = true := by
  refine ⟨rfl, ?_⟩
  rw [get_measurement_events]
  by_cases h : now - tracker < 1 <;>
    simp [h, isHumidityCmd, CMD_HEAD, CMD_SET_ABS_HUMI, CMD_MEASURE_IAQ]

/-- C4: the serial is formatted with `"{:06X}"`, which pads only to 6 hex
digits — a 9-byte reply whose 48-bit value is 1 renders as the 6-character
`"000001"`, and even `0x0123456789AB` renders as the 11-character
`"123456789AB"`, so leading zeros are not preserved to 12 digits. -/
theorem serial_id_width :
    serial_id_decode [0x00, 0x00, 0x81, 0x00, 0x00, 0x81, 0x00, 0x01, 0xB0] =
      some "000001" ∧
    ("000001" : String).length = 6 ∧ ("000001" : String).length ≠ 12 ∧
    serial_id_decode [0x01, 0x23, 0x00, 0x45, 0x67, 0x00, 0x89, 0xAB, 0x00] =
      some "123456789AB" ∧
    ("123456789AB" : String).length = 11 := by
  refine ⟨by decide, by decide, by decide, by decide, by decide⟩

/-- C7: `soft_reset` passes `CMD_HEAD` (`0x20`) as the address argument of
`write_byte`, so the reset opcode `0x06` goes to bus address `0x20` — not to
the general-call address `0x00` and not to the sensor's `0x58`; `close`
performs the soft reset and then releases the bus handle, in that order. -/
theorem soft_reset_address :
    soft_reset_events = [Ev.writeByte 0x20 0x06] ∧
    CMD_HEAD = 0x20 ∧ CMD_SOFT_RESET = 0x06 ∧
    (0x20 : Nat) ≠ GENERAL_CALL_ADDRESS ∧ (0x20 : Nat) ≠ I2C_ADDRESS ∧
    close_events = [Ev.writeByte 0x20 0x06, Ev.closeBus] := by
  refine ⟨rfl, rfl, rfl, by decide, by decide, rfl⟩

/-- C8: `get_sensor_info` leaves the last-measurement-issuance timestamp
unchanged for every session state, and its trace consists solely of the
serial-ID query and two feature-set queries (no measurement command, no
tracker update). -/
theorem sensor_info_frame (tracker : ℚ)
    (serial_reply type_reply version_reply : List Nat) :
    (get_sensor_info tracker serial_reply type_reply version_reply).tracker =
      tracker ∧
    (get_sensor_info tracker serial_reply type_reply version_reply).events =
      [Ev.write I2C_ADDRESS 0x36 [0x82], Ev.sleep T_IDLE,
       Ev.read I2C_ADDRESS REG_BASE 9,
       Ev.write I2C_ADDRESS CMD_HEAD [CMD_GET_FEATURE_SET], Ev.sleep (5/100),
       Ev.read I2C_ADDRESS REG_BASE 3,
       Ev.write I2C_ADDRESS CMD_HEAD [CMD_GET_FEATURE_SET], Ev.sleep (5/100),
       Ev.read I2C_ADDRESS REG_BASE 3] :=
  ⟨rfl, rfl⟩

end SGP30
